import Mathlib

set_option autoImplicit false

/-!
Shallow embedding of the core of the portable-issuer repository:
the status CRUD handlers and their error classifiers (src/api/status.rs),
the scoped connection / transaction primitives (src/api.rs),
the response envelope serializer (src/api/response.rs),
and the static path resolver (src/static_files.rs).

Database statements are modelled by their SQLite semantics over an explicit
list of persisted rows; sqlx errors are modelled by the variants the code
inspects (RowNotFound, Database errors carrying violation flags and a
constraint name, and a catch-all).  HTTP status codes are plain numerals.
-/

namespace PortableIssuer

/-! ## Low-level storage failure signals (model of the sqlx error surface) -/

/-- Model of a sqlx `DatabaseError`: the code only inspects whether it is a
unique violation, whether it is a foreign-key violation, and the reported
constraint name; a display message is carried for the cause chain. -/
structure DatabaseError where
  message : String
  unique_violation : Bool
  foreign_key_violation : Bool
  constraint : Option String
deriving DecidableEq, Repr

/-- Model of `sqlx::Error` restricted to the variants the repository code
distinguishes: `RowNotFound`, `Database`, and everything else collapsed
into `Other` with a display message. -/
inductive SqlxError where
  | RowNotFound
  | Database (e : DatabaseError)
  | Other (message : String)
deriving DecidableEq, Repr

/-- Constant `NAME_UNIQUE_CONSTRAINT` from src/api/status.rs line 19. -/
def NAME_UNIQUE_CONSTRAINT : String := "un_issue_statuses_name"

/-- Constant `ISSUES_STATUS_FK` from src/api/status.rs line 20. -/
def ISSUES_STATUS_FK : String := "fk_issues_status"

/-! ## HTTP status codes (axum StatusCode values used by the code) -/

def STATUS_OK : Nat := 200
def STATUS_BAD_REQUEST : Nat := 400
def STATUS_FORBIDDEN : Nat := 403
def STATUS_NOT_FOUND : Nat := 404
def STATUS_UNPROCESSABLE_ENTITY : Nat := 422
def STATUS_INTERNAL_SERVER_ERROR : Nat := 500

/-! ## Per-operation error enumerations and their classifiers
(`From<sqlx::Error>` impls in src/api/status.rs) -/

/-- Error enum `NewStatusError` (src/api/status.rs lines 33-39). -/
inductive NewStatusError where
  | AlreadyExists
  | Sqlx (e : SqlxError)
deriving DecidableEq, Repr

/-- Classifier `impl From<sqlx::Error> for NewStatusError`
(src/api/status.rs lines 41-52): a unique violation on the name constraint
becomes `AlreadyExists`, everything else is wrapped in `Sqlx`. -/
def NewStatusError.from_sqlx (error : SqlxError) : NewStatusError :=
  match error with
  | .Database e =>
    if e.unique_violation && e.constraint = some NAME_UNIQUE_CONSTRAINT then
      .AlreadyExists
    else
      .Sqlx error
  | _ => .Sqlx error

/-- Status-code mapping for `NewStatusError` (src/api/status.rs lines 54-61). -/
def NewStatusError.status_code : NewStatusError → Nat
  | .AlreadyExists => STATUS_FORBIDDEN
  | .Sqlx _ => STATUS_INTERNAL_SERVER_ERROR

/-- Error enum `GetStatusError` (src/api/status.rs lines 63-69). -/
inductive GetStatusError where
  | NotFound
  | Sqlx (e : SqlxError)
deriving DecidableEq, Repr

/-- Classifier `impl From<sqlx::Error> for GetStatusError`
(src/api/status.rs lines 71-78). -/
def GetStatusError.from_sqlx (error : SqlxError) : GetStatusError :=
  match error with
  | .RowNotFound => .NotFound
  | _ => .Sqlx error

/-- Status-code mapping for `GetStatusError` (src/api/status.rs lines 80-87). -/
def GetStatusError.status_code : GetStatusError → Nat
  | .NotFound => STATUS_NOT_FOUND
  | .Sqlx _ => STATUS_INTERNAL_SERVER_ERROR

/-- Error enum `DeleteStatusError` (src/api/status.rs lines 89-97). -/
inductive DeleteStatusError where
  | NotFound
  | InUse
  | Sqlx (e : SqlxError)
deriving DecidableEq, Repr

/-- Classifier `impl From<sqlx::Error> for DeleteStatusError`
(src/api/status.rs lines 99-113): the foreign-key-constraint check runs
first, then the row-not-found check, then the generic fallback. -/
def DeleteStatusError.from_sqlx (error : SqlxError) : DeleteStatusError :=
  match error with
  | .Database e =>
    if e.foreign_key_violation && e.constraint = some ISSUES_STATUS_FK then
      .InUse
    else
      .Sqlx error
  | .RowNotFound => .NotFound
  | _ => .Sqlx error

/-- Status-code mapping for `DeleteStatusError`
(src/api/status.rs lines 115-123). -/
def DeleteStatusError.status_code : DeleteStatusError → Nat
  | .NotFound => STATUS_NOT_FOUND
  | .InUse => STATUS_FORBIDDEN
  | .Sqlx _ => STATUS_INTERNAL_SERVER_ERROR

/-- Error enum `PatchStatusError` (src/api/status.rs lines 125-135). -/
inductive PatchStatusError where
  | NoFieldsPatched
  | AlreadyExists
  | NotFound
  | Sqlx (e : SqlxError)
deriving DecidableEq, Repr

/-- Classifier `impl From<sqlx::Error> for PatchStatusError`
(src/api/status.rs lines 137-151). -/
def PatchStatusError.from_sqlx (error : SqlxError) : PatchStatusError :=
  match error with
  | .Database e =>
    if e.unique_violation && e.constraint = some NAME_UNIQUE_CONSTRAINT then
      .AlreadyExists
    else
      .Sqlx error
  | .RowNotFound => .NotFound
  | _ => .Sqlx error

/-- Status-code mapping for `PatchStatusError`
(src/api/status.rs lines 153-162). -/
def PatchStatusError.status_code : PatchStatusError → Nat
  | .NoFieldsPatched => STATUS_BAD_REQUEST
  | .NotFound => STATUS_NOT_FOUND
  | .AlreadyExists => STATUS_FORBIDDEN
  | .Sqlx _ => STATUS_INTERNAL_SERVER_ERROR

/-! ## Database model

The `statuses` table (columns `id` primary key, `name` unique not null) is
modelled as a list of rows in physical order; a separate predicate records
which ids are referenced by the `fk_issues_status` foreign key of the
surrounding schema. -/

/-- One persisted row of the `statuses` table. -/
structure StatusRow where
  id : Int
  name : String
deriving DecidableEq, Repr

/-- The persisted table, rows in physical (insertion) order. -/
abbrev Db : Type := List StatusRow

/-- Response body `StatusResponse` (src/api/status.rs lines 164-168). -/
structure StatusResponse where
  id : Int
  name : String
deriving DecidableEq, Repr

/-- Response body `StatusListResponse` (src/api/status.rs lines 176-179). -/
structure StatusListResponse where
  list : List StatusResponse
deriving DecidableEq, Repr

/-- The database error SQLite raises for a violation of the unique
constraint on `statuses.name`. -/
def uniqueNameViolation : DatabaseError :=
  { message := "UNIQUE constraint failed: statuses.name"
    unique_violation := true
    foreign_key_violation := false
    constraint := some NAME_UNIQUE_CONSTRAINT }

/-- The database error SQLite raises when deleting a status still referenced
through the `fk_issues_status` foreign key. -/
def fkInUseViolation : DatabaseError :=
  { message := "FOREIGN KEY constraint failed"
    unique_violation := false
    foreign_key_violation := true
    constraint := some ISSUES_STATUS_FK }

/-- Id assigned by SQLite to a freshly inserted row: one more than the
largest id in the table (1 on an empty table). -/
def freshId (db : Db) : Int :=
  (db.map StatusRow.id).foldl max 0 + 1

/-- Semantics of `INSERT INTO statuses (name) VALUES (?) RETURNING id`
run with `fetch_one`: a duplicate name raises the unique-constraint
violation, otherwise the row is appended and its new id returned. -/
def insertStatus (db : Db) (name : String) : Except SqlxError (Int × Db) :=
  if db.any (fun r => r.name = name) then
    .error (.Database uniqueNameViolation)
  else
    .ok (freshId db, db ++ [{ id := freshId db, name := name }])

/-- Semantics of `SELECT name FROM statuses WHERE id = ?` with `fetch_one`:
the first matching row, or `RowNotFound` when none matches. -/
def selectNameById (db : Db) (id : Int) : Except SqlxError String :=
  match db.find? (fun r => r.id = id) with
  | some r => .ok r.name
  | none => .error .RowNotFound

/-- Semantics of `SELECT id FROM statuses WHERE name = ?` with `fetch_one`. -/
def selectIdByName (db : Db) (name : String) : Except SqlxError Int :=
  match db.find? (fun r => r.name = name) with
  | some r => .ok r.id
  | none => .error .RowNotFound

/-- Semantics of `DELETE FROM statuses WHERE id = ? RETURNING name` with
`fetch_one`, under the foreign key `fk_issues_status`: deleting a referenced
row raises the foreign-key violation, deleting an absent row yields
`RowNotFound`. `referenced` tells which ids other records still reference. -/
def deleteStatusById (db : Db) (referenced : Int → Bool) (id : Int) :
    Except SqlxError (String × Db) :=
  match db.find? (fun r => r.id = id) with
  | none => .error .RowNotFound
  | some r =>
    if referenced id then
      .error (.Database fkInUseViolation)
    else
      .ok (r.name, db.filter (fun s => ¬ s.id = id))

/-- Semantics of `DELETE FROM statuses WHERE name = ? RETURNING id` with
`fetch_one`, under the foreign key `fk_issues_status`. -/
def deleteStatusByName (db : Db) (referenced : Int → Bool) (name : String) :
    Except SqlxError (Int × Db) :=
  match db.find? (fun r => r.name = name) with
  | none => .error .RowNotFound
  | some r =>
    if referenced r.id then
      .error (.Database fkInUseViolation)
    else
      .ok (r.id, db.filter (fun s => ¬ s.name = name))

/-- Semantics of `UPDATE statuses SET name = ? WHERE id = ?` run with
`execute`: when no row has the id, zero rows are updated and the statement
still succeeds; renaming onto a name held by a different row raises the
unique-constraint violation. -/
def updateNameById (db : Db) (id : Int) (newName : String) :
    Except SqlxError Db :=
  if db.any (fun r => r.id = id) then
    if db.any (fun r => r.name = newName ∧ ¬ r.id = id) then
      .error (.Database uniqueNameViolation)
    else
      .ok (db.map (fun r => if r.id = id then { r with name := newName } else r))
  else
    .ok db

/-- Semantics of `UPDATE statuses SET name = ? WHERE name = ? RETURNING id`
run with `fetch_one`: an absent source name yields `RowNotFound`. -/
def updateNameByName (db : Db) (name newName : String) :
    Except SqlxError (Int × Db) :=
  match db.find? (fun r => r.name = name) with
  | none => .error .RowNotFound
  | some r =>
    if db.any (fun s => s.name = newName ∧ ¬ s.id = r.id) then
      .error (.Database uniqueNameViolation)
    else
      .ok (r.id, db.map (fun s => if s.name = name then { s with name := newName } else s))

/-! ## Handlers (src/api/status.rs lines 247-415)

Each handler is modelled on the clean connection path (pool acquisition and
connection close succeed; those failure paths are analyzed separately on the
`with_bare_conn` model below).  A handler run records the typed result, the
resulting table, and whether the handler reached storage at all. -/

/-- Outcome of one handler invocation: the typed result of the operation,
the table afterwards, and whether any storage statement was issued. -/
structure HandlerRun (E : Type) where
  result : Except E StatusResponse
  db : Db
  storage_accessed : Bool
deriving Repr

/-- Request payload `NewStatusPayload` (src/api/status.rs lines 22-25). -/
structure NewStatusPayload where
  name : String
deriving DecidableEq, Repr

/-- Request payload `PatchStatusPayload` (src/api/status.rs lines 27-31):
the `name` field is optional and defaults to absent. -/
structure PatchStatusPayload where
  name : Option String
deriving DecidableEq, Repr

/-- Handler `post_new` (src/api/status.rs lines 247-266). -/
def post_new (db : Db) (payload : NewStatusPayload) : HandlerRun NewStatusError :=
  match insertStatus db payload.name with
  | .ok (id, db1) =>
    { result := .ok { id := id, name := payload.name }, db := db1, storage_accessed := true }
  | .error e =>
    { result := .error (NewStatusError.from_sqlx e), db := db, storage_accessed := true }

/-- Handler `get_by_id` (src/api/status.rs lines 268-285). -/
def get_by_id (db : Db) (id : Int) : HandlerRun GetStatusError :=
  match selectNameById db id with
  | .ok name =>
    { result := .ok { id := id, name := name }, db := db, storage_accessed := true }
  | .error e =>
    { result := .error (GetStatusError.from_sqlx e), db := db, storage_accessed := true }

/-- Handler `get_by_name` (src/api/status.rs lines 287-304). -/
def get_by_name (db : Db) (name : String) : HandlerRun GetStatusError :=
  match selectIdByName db name with
  | .ok id =>
    { result := .ok { id := id, name := name }, db := db, storage_accessed := true }
  | .error e =>
    { result := .error (GetStatusError.from_sqlx e), db := db, storage_accessed := true }

/-- Handler `delete_by_id` (src/api/status.rs lines 306-324). -/
def delete_by_id (db : Db) (referenced : Int → Bool) (id : Int) :
    HandlerRun DeleteStatusError :=
  match deleteStatusById db referenced id with
  | .ok (name, db1) =>
    { result := .ok { id := id, name := name }, db := db1, storage_accessed := true }
  | .error e =>
    { result := .error (DeleteStatusError.from_sqlx e), db := db, storage_accessed := true }

/-- Handler `delete_by_name` (src/api/status.rs lines 326-344). -/
def delete_by_name (db : Db) (referenced : Int → Bool) (name : String) :
    HandlerRun DeleteStatusError :=
  match deleteStatusByName db referenced name with
  | .ok (id, db1) =>
    { result := .ok { id := id, name := name }, db := db1, storage_accessed := true }
  | .error e =>
    { result := .error (DeleteStatusError.from_sqlx e), db := db, storage_accessed := true }

/-- Handler `patch_by_id` (src/api/status.rs lines 346-367): an absent
new-name field fails `NoFieldsPatched` before any storage access; otherwise
the update runs with `execute` and the handler reports success built from
its own arguments, never inspecting how many rows were updated. -/
def patch_by_id (db : Db) (id : Int) (payload : PatchStatusPayload) :
    HandlerRun PatchStatusError :=
  match payload.name with
  | none =>
    { result := .error .NoFieldsPatched, db := db, storage_accessed := false }
  | some newName =>
    match updateNameById db id newName with
    | .ok db1 =>
      { result := .ok { id := id, name := newName }, db := db1, storage_accessed := true }
    | .error e =>
      { result := .error (PatchStatusError.from_sqlx e), db := db, storage_accessed := true }

/-- Handler `patch_by_name` (src/api/status.rs lines 369-393). -/
def patch_by_name (db : Db) (name : String) (payload : PatchStatusPayload) :
    HandlerRun PatchStatusError :=
  match payload.name with
  | none =>
    { result := .error .NoFieldsPatched, db := db, storage_accessed := false }
  | some newName =>
    match updateNameByName db name newName with
    | .ok (id, db1) =>
      { result := .ok { id := id, name := newName }, db := db1, storage_accessed := true }
    | .error e =>
      { result := .error (PatchStatusError.from_sqlx e), db := db, storage_accessed := true }

/-! ## The list handler and its SQL text (src/api/status.rs lines 395-415)

The SQL string is carried verbatim; SQLite statement preparation is modelled
just far enough to decide the one grammar rule the string exercises: a
`WHERE` keyword must be followed by an expression, so a `WHERE` immediately
followed by `ORDER`, `GROUP`, `LIMIT` or the end of the statement is a
syntax error reported at preparation time (surfacing from the row stream's
first poll). -/

/-- The SQL text of the list query, verbatim from src/api/status.rs
line 403. -/
def GET_LIST_SQL : String := "SELECT id, name FROM statuses WHERE ORDER BY id"

/-- Splitting a character list at every occurrence of a separator, with an
accumulator for the word being read (structurally recursive so that
concrete splits reduce definitionally). -/
def splitCharsAux (sep : Char) : List Char → List Char → List (List Char)
  | [], acc => [acc.reverse]
  | c :: rest, acc =>
    if c = sep then acc.reverse :: splitCharsAux sep rest []
    else splitCharsAux sep rest (c :: acc)

/-- A string split at every occurrence of a separator character; like the
runtime's splitter, bordering separators produce empty words. -/
def splitOnChar (s : String) (sep : Char) : List String :=
  (splitCharsAux sep s.data []).map String.mk

/-- Whether the first character of a string is the given one. -/
def strHeadIs (s : String) (c : Char) : Bool :=
  match s.data with
  | [] => false
  | c2 :: _ => c2 = c

/-- Whether the last character of a string is the given one. -/
def strLastIs (s : String) (c : Char) : Bool :=
  match s.data.getLast? with
  | some c2 => c2 = c
  | none => false

/-- Whitespace-separated words of an SQL string. -/
def sqlWords (s : String) : List String :=
  (splitOnChar s ' ').filter (fun w => ¬ w = "")

/-- Keywords that cannot begin the expression of a `WHERE` clause. -/
def startsClauseKeyword (w : String) : Bool :=
  w = "ORDER" ∨ w = "GROUP" ∨ w = "LIMIT"

/-- Whether some `WHERE` keyword in the word list lacks a following
expression (next word missing or a clause keyword). -/
def whereMissingPredicate : List String → Bool
  | [] => false
  | ["WHERE"] => true
  | w :: next :: rest =>
    (w = "WHERE" && startsClauseKeyword next) || whereMissingPredicate (next :: rest)
  | _ :: rest => whereMissingPredicate rest

/-- The database error SQLite reports when preparing the malformed list
query. -/
def listSqlPrepareError : SqlxError :=
  .Database
    { message := "error returned from database: near \"ORDER\": syntax error"
      unique_violation := false
      foreign_key_violation := false
      constraint := none }

/-- Model of statement preparation restricted to the grammar rule above:
a statement whose `WHERE` clause has no predicate fails to prepare. -/
def prepareStatement (sql : String) : Option SqlxError :=
  if whereMissingPredicate (sqlWords sql) then some listSqlPrepareError else none

/-- Rows of the table sorted ascending by id, as the intended
`ORDER BY id` clause would return them. -/
def rowsSortedById (db : Db) : List StatusResponse :=
  ((db.mergeSort (fun a b => a.id ≤ b.id)).map
    (fun r => { id := r.id, name := r.name }))

/-- Handler `get_list` (src/api/status.rs lines 395-415): the first poll of
the row stream propagates any preparation error through `?`; otherwise rows
are collected into a materialized vector. -/
def get_list (db : Db) : Except GetStatusError StatusListResponse :=
  match prepareStatement GET_LIST_SQL with
  | some e => .error (GetStatusError.from_sqlx e)
  | none => .ok { list := rowsSortedById db }

/-! ## Scoped connection and transaction primitives (src/api.rs lines 16-46)

The body and the pool interactions are abstracted: an environment fixes
whether acquisition (or `begin`), the body, and `close` (or
`commit`/`rollback`) succeed, and the model records which terminal
operations are invoked. -/

/-- Environment of one `with_bare_conn` call: whether pool acquisition
fails, the body's result once run, and whether `close` fails. -/
structure BareConnEnv (E T : Type) where
  acquire_failure : Option SqlxError
  body : Except E T
  close_failure : Option SqlxError

/-- Model of `Resources::with_bare_conn` (src/api.rs lines 17-28): acquire,
run the body, close the connection, then return the body's result; a close
failure propagates through `?` and replaces the body's result.  The boolean
records whether `close` was invoked. -/
def with_bare_conn {E T : Type} (fromSqlx : SqlxError → E) (env : BareConnEnv E T) :
    Except E T × Bool :=
  match env.acquire_failure with
  | some e => (.error (fromSqlx e), false)
  | none =>
    match env.close_failure with
    | some e => (.error (fromSqlx e), true)
    | none => (env.body, true)

/-- Terminal operation a transaction reaches. -/
inductive TxTerminal where
  | committed
  | rolledBack
deriving DecidableEq, Repr

/-- Environment of one `with_transaction` call: whether `begin` fails, the
body's result once run, and whether `commit` and `rollback` would fail. -/
structure TxEnv (E T : Type) where
  begin_failure : Option SqlxError
  body : Except E T
  commit_failure : Option SqlxError
  rollback_failure : Option SqlxError

/-- Model of `Resources::with_transaction` (src/api.rs lines 30-45): begin,
run the body, commit when it returned Ok and roll back when it returned
Err, then return the body's result; a commit or rollback failure propagates
through `?`.  The trace lists the terminal operations invoked, in order. -/
def with_transaction {E T : Type} (fromSqlx : SqlxError → E) (env : TxEnv E T) :
    Except E T × List TxTerminal :=
  match env.begin_failure with
  | some e => (.error (fromSqlx e), [])
  | none =>
    match env.body with
    | .ok t =>
      match env.commit_failure with
      | some e => (.error (fromSqlx e), [.committed])
      | none => (.ok t, [.committed])
    | .error err =>
      match env.rollback_failure with
      | some e => (.error (fromSqlx e), [.rolledBack])
      | none => (.error err, [.rolledBack])

/-! ## Static path resolver (src/static_files.rs)

`Path::components()` of the Rust standard library is modelled for Unix
paths: a leading `/` yields a root component, empty components collapse,
`.` components are dropped except as the very first component of a
rootless path, `..` is a parent-directory component, and anything else is
a normal (plain name) component. -/

/-- The component kinds of std `path::Component` the resolver can see on a
Unix platform (prefixes do not occur). -/
inductive PathComponent where
  | rootDir
  | curDir
  | parentDir
  | normal (s : String)
deriving DecidableEq, Repr

/-- Whether a component is `Component::Normal(_)`. -/
def PathComponent.isNormal : PathComponent → Bool
  | .normal _ => true
  | _ => false

/-- A non-leading path word as a component: `..` is the parent-directory
marker, everything else (here never empty, never `.`) is a plain name. -/
def classifyWord (s : String) : PathComponent :=
  if s = ".." then .parentDir else .normal s

/-- Model of `Path::new(p).components()` for Unix paths. -/
def pathComponents (p : String) : List PathComponent :=
  let hasRoot := strHeadIs p '/'
  let root : List PathComponent := if hasRoot then [.rootDir] else []
  match (splitOnChar p '/').filter (fun s => ¬ s = "") with
  | [] => root
  | first :: rest =>
    let restComps := (rest.filter (fun s => ¬ s = ".")).map classifyWord
    if first = "." then
      if hasRoot then root ++ restComps else .curDir :: restComps
    else
      root ++ classifyWord first :: restComps

/-- Model of `PathBuf::join`: an absolute right side replaces the base,
otherwise the right side is appended after a separator. -/
def pathJoin (base sub : String) : String :=
  if strHeadIs sub '/' then sub
  else if strLastIs base '/' || base = "" then base ++ sub
  else base ++ "/" ++ sub

/-- What `Resources::stream_file` does with a request, up to the point of
filesystem interaction: either it returns `InvalidSubPath` having touched
nothing, or it attempts `File::open` on the joined path. -/
inductive StreamFileOutcome where
  | invalidSubPath (subpath : String)
  | openAttempt (full_path : String)
deriving DecidableEq, Repr

/-- Model of `Resources::stream_file` (src/static_files.rs lines 55-73):
the joined path is computed (pure string manipulation), then the request is
rejected as `InvalidSubPath` when any component of the supplied subpath is
not a `Normal` component; only past that check is a file open attempted. -/
def stream_file (base_dir : String) (subpath : String) : StreamFileOutcome :=
  let full_path := pathJoin base_dir subpath
  if (pathComponents subpath).any (fun c => ¬ c.isNormal) then
    .invalidSubPath subpath
  else
    .openAttempt full_path

/-! ## Response envelope and cause-chain serialization (src/api/response.rs)

Dynamic errors (`dyn Error`) are modelled by their display message and
optional source; JSON values by a small inductive. -/

/-- A `dyn Error` value: its display message and its declared source, if
any (the `#[source]` chain built by thiserror). -/
inductive DynError where
  | leaf (message : String)
  | node (message : String) (src : DynError)
deriving DecidableEq, Repr

/-- Display message of a dynamic error. -/
def DynError.message : DynError → String
  | .leaf m => m
  | .node m _ => m

/-- Declared source of a dynamic error, as `Error::source` reports it. -/
def DynError.source : DynError → Option DynError
  | .leaf _ => none
  | .node _ s => some s

/-- The sequence of errors produced by the `ErrorChain` iterator
(src/api/response.rs lines 97-105): it yields the current error and then
continues from that error's source until none remains. -/
def errorChainItems : DynError → List DynError
  | .leaf m => [.leaf m]
  | .node m s => .node m s :: errorChainItems s

/-- Modelled from the spec: "an ordered list of human-readable cause
strings, outermost cause first, produced by walking the failure's cause
chain to its root" — the display strings collected from the failure
outward-in, used to compare against the serializer built from the code. -/
def specCauseStrings : DynError → List String
  | .leaf m => [m]
  | .node m s => m :: specCauseStrings s

/-- A JSON value, as serde would emit it. -/
inductive Json where
  | num (n : Nat)
  | str (s : String)
  | arr (items : List Json)
  | obj (fields : List (String × Json))

/-- How many fields of a serialized object carry the given key. -/
def Json.fieldCount (j : Json) (key : String) : Nat :=
  match j with
  | .obj fields => (fields.filter (fun f => f.1 = key)).length
  | _ => 0

/-- Value of the first field with the given key, if the value is an object
holding one. -/
def Json.fieldValue (j : Json) (key : String) : Option Json :=
  match j with
  | .obj fields =>
    match fields.find? (fun f => f.1 = key) with
    | some f => some f.2
    | none => none
  | _ => none

/-- Serialization of `ErrorChain` (src/api/response.rs lines 107-114):
`collect_seq` over the iterator, each item rendered by `collect_str` on its
display implementation. -/
def serializeErrorChain (e : DynError) : Json :=
  .arr ((errorChainItems e).map (fun item => .str item.message))

/-- Serialization of `ApiResponse` (src/api/response.rs lines 50-74): a
two-field struct whose first field is the numeric status code and whose
second field is `data` with the payload on success, or `errors` with the
serialized cause chain on failure. -/
def serializeApiResponse (status_code : Nat) (result : Except DynError Json) : Json :=
  match result with
  | .ok data => .obj [("status", .num status_code), ("data", data)]
  | .error e => .obj [("status", .num status_code), ("errors", serializeErrorChain e)]

/-! ## Helper lemmas -/

/-- The messages yielded by the `ErrorChain` iterator are exactly the cause
strings the spec describes, outermost first. -/
theorem errorChainItems_messages (e : DynError) :
    (errorChainItems e).map DynError.message = specCauseStrings e := by
  induction e with
  | leaf m => rfl
  | node m s ih => simp [errorChainItems, specCauseStrings, DynError.message, ih]

/-- A list none of whose elements satisfies the test has no `find?` hit. -/
theorem find?_of_any_false {α : Type} (p : α → Bool) (l : List α)
    (h : l.any p = false) : l.find? p = none := by
  rw [List.find?_eq_none]
  intro x hx
  exact fun hpx => (List.any_eq_false.mp h x hx) hpx

/-! ## Claim theorems -/

/-- C1 (amended): every client-supplied subpath with at least one component
that is not a plain name segment — in particular "../secret",
"a/../../etc/passwd" and "/etc/passwd" — makes `stream_file` fail
`InvalidSubPath` without any file open being attempted.  (The empty string
is not such a subpath: it has no components at all.) -/
theorem stream_file_invalid_subpath_amended :
    (∀ base_dir subpath : String,
      (pathComponents subpath).any (fun c => ¬ c.isNormal) = true →
      stream_file base_dir subpath = .invalidSubPath subpath) ∧
    (∀ base_dir : String,
      stream_file base_dir "../secret" = .invalidSubPath "../secret" ∧
      stream_file base_dir "a/../../etc/passwd" = .invalidSubPath "a/../../etc/passwd" ∧
      stream_file base_dir "/etc/passwd" = .invalidSubPath "/etc/passwd") := by
  have general : ∀ base_dir subpath : String,
      (pathComponents subpath).any (fun c => ¬ c.isNormal) = true →
      stream_file base_dir subpath = .invalidSubPath subpath := by
    intro base_dir subpath h
    simp only [stream_file, h]
    rfl
  refine ⟨general, fun base_dir => ⟨?h1, ?h2, ?h3⟩⟩
  · exact general base_dir "../secret" (by decide)
  · exact general base_dir "a/../../etc/passwd" (by decide)
  · exact general base_dir "/etc/passwd" (by decide)

/-- Witness for C1: the general rejection statement applied at the concrete
subpath "../secret" under the root "root". -/
theorem stream_file_invalid_subpath_witness :
    stream_file "root" "../secret" = .invalidSubPath "../secret" :=
  stream_file_invalid_subpath_amended.1 "root" "../secret" (by decide)

/-- Counterexample for C1 as stated: the empty subpath has no components,
so the validation finds nothing to reject and `stream_file` proceeds to
attempt a file open on the joined base path rather than failing
`InvalidSubPath`. -/
theorem stream_file_empty_subpath_counterexample :
    stream_file "root" "" = .openAttempt "root/" ∧
    ¬ stream_file "root" "" = .invalidSubPath "" := by
  constructor
  · decide
  · decide

/-- C2: `patch_by_id` with a new name supplied, invoked for an id that
identifies no row, reports success with a response fabricated from its own
arguments while updating nothing — even though `get_by_id` on the same id
fails `NotFound` — instead of failing `NotFound` as the claim states. -/
theorem patch_by_id_nonexistent_reports_success :
    patch_by_id [{ id := 1, name := "open" }] 999 { name := some "renamed" } =
      { result := .ok { id := 999, name := "renamed" },
        db := [{ id := 1, name := "open" }],
        storage_accessed := true } ∧
    (get_by_id [{ id := 1, name := "open" }] 999).result =
      .error GetStatusError.NotFound := by
  exact ⟨rfl, rfl⟩

/-- C3: the list query's SQL text has a `WHERE` clause with no predicate,
so statement preparation fails and `get_list` returns the wrapped storage
failure on every database state; it never returns the row list. -/
theorem get_list_always_fails (db : Db) :
    get_list db = .error (GetStatusError.Sqlx listSqlPrepareError) := rfl

/-- C4: once the transaction is begun, exactly one terminal operation is
invoked, chosen synchronously from the body's result: commit when the body
succeeded, rollback when it failed — and in the failure case the call
propagates an error. -/
theorem with_transaction_commit_or_rollback {E T : Type}
    (fromSqlx : SqlxError → E) (env : TxEnv E T)
    (h : env.begin_failure = none) :
    (with_transaction fromSqlx env).2.length = 1 ∧
    (∀ t : T, env.body = .ok t →
      (with_transaction fromSqlx env).2 = [TxTerminal.committed]) ∧
    (∀ err : E, env.body = .error err →
      (with_transaction fromSqlx env).2 = [TxTerminal.rolledBack] ∧
      ∃ err2 : E, (with_transaction fromSqlx env).1 = .error err2) := by
  refine ⟨?len, ?commit, ?rollback⟩
  · unfold with_transaction
    rw [h]
    cases env.body with
    | ok t => cases env.commit_failure <;> rfl
    | error err => cases env.rollback_failure <;> rfl
  · intro t ht
    unfold with_transaction
    rw [h, ht]
    cases env.commit_failure <;> rfl
  · intro err herr
    unfold with_transaction
    rw [h, herr]
    cases env.rollback_failure with
    | none => exact ⟨rfl, err, rfl⟩
    | some e => exact ⟨rfl, fromSqlx e, rfl⟩

/-- Witness for C4: a successfully begun transaction whose body returns a
value commits, and one whose body fails rolls back. -/
theorem with_transaction_commit_or_rollback_witness :
    (with_transaction GetStatusError.from_sqlx
      (⟨none, Except.ok 5, none, none⟩ : TxEnv GetStatusError Nat)).2 =
      [TxTerminal.committed] ∧
    (with_transaction GetStatusError.from_sqlx
      (⟨none, Except.error GetStatusError.NotFound, none, none⟩ :
        TxEnv GetStatusError Nat)).2 = [TxTerminal.rolledBack] :=
  ⟨(with_transaction_commit_or_rollback GetStatusError.from_sqlx _ rfl).2.1 5 rfl,
   ((with_transaction_commit_or_rollback GetStatusError.from_sqlx _ rfl).2.2
      GetStatusError.NotFound rfl).1⟩

/-- C5: a patch payload without the new-name field makes both patch
handlers fail `NoFieldsPatched` with no storage access of any kind and the
table left exactly as it was. -/
theorem patch_without_fields_no_storage (db : Db) (id : Int) (name : String)
    (payload : PatchStatusPayload) (h : payload.name = none) :
    (patch_by_id db id payload).result = .error PatchStatusError.NoFieldsPatched ∧
    (patch_by_id db id payload).db = db ∧
    (patch_by_id db id payload).storage_accessed = false ∧
    (patch_by_name db name payload).result = .error PatchStatusError.NoFieldsPatched ∧
    (patch_by_name db name payload).db = db ∧
    (patch_by_name db name payload).storage_accessed = false := by
  cases payload with
  | mk pn =>
    cases h
    exact ⟨rfl, rfl, rfl, rfl, rfl, rfl⟩

/-- Witness for C5: the empty patch payload against a one-row table. -/
theorem patch_without_fields_no_storage_witness :
    (patch_by_id [{ id := 1, name := "open" }] 1 ⟨none⟩).result =
      .error PatchStatusError.NoFieldsPatched ∧
    (patch_by_id [{ id := 1, name := "open" }] 1 ⟨none⟩).db =
      [{ id := 1, name := "open" }] ∧
    (patch_by_id [{ id := 1, name := "open" }] 1 ⟨none⟩).storage_accessed = false ∧
    (patch_by_name [{ id := 1, name := "open" }] "open" ⟨none⟩).result =
      .error PatchStatusError.NoFieldsPatched ∧
    (patch_by_name [{ id := 1, name := "open" }] "open" ⟨none⟩).db =
      [{ id := 1, name := "open" }] ∧
    (patch_by_name [{ id := 1, name := "open" }] "open" ⟨none⟩).storage_accessed =
      false :=
  patch_without_fields_no_storage [{ id := 1, name := "open" }] 1 "open" ⟨none⟩ rfl

/-- C6: the delete-error classifier is total by construction and sends the
referenced-elsewhere foreign-key violation to `InUse`, the row-not-found
signal to `NotFound`, and every other signal to the generic wrapper around
the original cause; the constraint check is evaluated before the fallback,
so a signal matching it is never misclassified. -/
theorem delete_classifier_cases (e : SqlxError) :
    (∀ d : DatabaseError, e = .Database d →
      d.foreign_key_violation = true → d.constraint = some ISSUES_STATUS_FK →
      DeleteStatusError.from_sqlx e = .InUse) ∧
    (e = .RowNotFound → DeleteStatusError.from_sqlx e = .NotFound) ∧
    ((∀ d : DatabaseError, e = .Database d →
        ¬ (d.foreign_key_violation = true ∧ d.constraint = some ISSUES_STATUS_FK)) →
      ¬ e = .RowNotFound →
      DeleteStatusError.from_sqlx e = .Sqlx e) := by
  refine ⟨?fk, ?rnf, ?fallback⟩
  · intro d hd hfk hcon
    subst hd
    simp [DeleteStatusError.from_sqlx, hfk, hcon]
  · intro hd
    subst hd
    rfl
  · intro hnotfk hnotrnf
    cases e with
    | RowNotFound => exact absurd rfl hnotrnf
    | Database d =>
      have hd := hnotfk d rfl
      by_cases hfk : d.foreign_key_violation = true
      · by_cases hcon : d.constraint = some ISSUES_STATUS_FK
        · exact absurd ⟨hfk, hcon⟩ hd
        · simp [DeleteStatusError.from_sqlx, hfk, hcon]
      · simp [DeleteStatusError.from_sqlx, hfk]
    | Other m => rfl

/-- Witness for C6: each of the three classifier branches evaluated at a
concrete signal. -/
theorem delete_classifier_cases_witness :
    DeleteStatusError.from_sqlx (.Database fkInUseViolation) = .InUse ∧
    DeleteStatusError.from_sqlx .RowNotFound = .NotFound ∧
    DeleteStatusError.from_sqlx (.Other "disk full") = .Sqlx (.Other "disk full") :=
  ⟨(delete_classifier_cases (.Database fkInUseViolation)).1 fkInUseViolation rfl rfl rfl,
   (delete_classifier_cases .RowNotFound).2.1 rfl,
   (delete_classifier_cases (.Other "disk full")).2.2
     (fun d hd => by cases hd) (fun hd => by cases hd)⟩

/-- C7: each domain error kind carries exactly one externally visible
status code, the same wherever the kind occurs: `AlreadyExists` is
forbidden, `NotFound` is not-found, `InUse` is forbidden, `NoFieldsPatched`
is bad-request, and the storage-failure wrapper is internal-server-error in
all four operations. -/
theorem error_kind_status_codes :
    NewStatusError.status_code .AlreadyExists = STATUS_FORBIDDEN ∧
    PatchStatusError.status_code .AlreadyExists = STATUS_FORBIDDEN ∧
    GetStatusError.status_code .NotFound = STATUS_NOT_FOUND ∧
    DeleteStatusError.status_code .NotFound = STATUS_NOT_FOUND ∧
    PatchStatusError.status_code .NotFound = STATUS_NOT_FOUND ∧
    DeleteStatusError.status_code .InUse = STATUS_FORBIDDEN ∧
    PatchStatusError.status_code .NoFieldsPatched = STATUS_BAD_REQUEST ∧
    (∀ e : SqlxError,
      NewStatusError.status_code (.Sqlx e) = STATUS_INTERNAL_SERVER_ERROR ∧
      GetStatusError.status_code (.Sqlx e) = STATUS_INTERNAL_SERVER_ERROR ∧
      DeleteStatusError.status_code (.Sqlx e) = STATUS_INTERNAL_SERVER_ERROR ∧
      PatchStatusError.status_code (.Sqlx e) = STATUS_INTERNAL_SERVER_ERROR) :=
  ⟨rfl, rfl, rfl, rfl, rfl, rfl, rfl, fun _ => ⟨rfl, rfl, rfl, rfl⟩⟩

/-- C8: a successful `post_new` returns the freshly assigned id paired with
the requested name, and `get_by_name` on the resulting table returns that
same id for that name. -/
theorem create_get_by_name_roundtrip (db : Db) (name : String)
    (resp : StatusResponse)
    (h : (post_new db { name := name }).result = .ok resp) :
    resp.id = freshId db ∧ resp.name = name ∧
    (get_by_name (post_new db { name := name }).db name).result =
      .ok { id := resp.id, name := name } := by
  by_cases hc : db.any (fun r => r.name = name)
  · exfalso
    simp [post_new, insertStatus, hc] at h
  · rw [Bool.not_eq_true] at hc
    have hpost : post_new db { name := name } =
        { result := .ok { id := freshId db, name := name },
          db := db ++ [{ id := freshId db, name := name }],
          storage_accessed := true } := by
      simp [post_new, insertStatus, hc]
    rw [hpost] at h ⊢
    simp only [Except.ok.injEq] at h
    subst h
    refine ⟨rfl, rfl, ?goal⟩
    have hfind :
        (db ++ [({ id := freshId db, name := name } : StatusRow)]).find?
          (fun r => r.name = name) =
          some { id := freshId db, name := name } := by
      rw [List.find?_append, find?_of_any_false _ db hc]
      simp
    simp [get_by_name, selectIdByName, hfind]

/-- Witness for C8: creating "open" on the empty table assigns id 1 and a
following `get_by_name` returns it. -/
theorem create_get_by_name_roundtrip_witness :
    ((1 : Int) = freshId [] ∧ "open" = "open" ∧
      (get_by_name (post_new [] { name := "open" }).db "open").result =
        .ok { id := (1 : Int), name := "open" }) := by
  have h := create_get_by_name_roundtrip [] "open" { id := 1, name := "open" } rfl
  exact ⟨h.1, rfl, h.2.2⟩

/-- C9: every serialized envelope has exactly one `status` field carrying
the numeric code and exactly one of `data` (success) or `errors` (failure),
where `errors` is the list of cause strings obtained by walking the
failure's source chain from the outermost error to its root, outermost
first. -/
theorem api_response_envelope_shape (status_code : Nat)
    (result : Except DynError Json) :
    Json.fieldCount (serializeApiResponse status_code result) "status" = 1 ∧
    Json.fieldCount (serializeApiResponse status_code result) "data" +
      Json.fieldCount (serializeApiResponse status_code result) "errors" = 1 ∧
    Json.fieldValue (serializeApiResponse status_code result) "status" =
      some (.num status_code) ∧
    (∀ d : Json, result = .ok d →
      Json.fieldValue (serializeApiResponse status_code result) "data" = some d) ∧
    (∀ e : DynError, result = .error e →
      Json.fieldValue (serializeApiResponse status_code result) "errors" =
        some (.arr ((specCauseStrings e).map Json.str))) := by
  cases result with
  | ok d =>
    refine ⟨rfl, rfl, rfl, fun d2 hd => ?data, fun e he => by simp at he⟩
    injection hd with hd2
    subst hd2
    rfl
  | error e =>
    refine ⟨rfl, rfl, rfl, fun d2 hd => by simp at hd, fun e2 he => ?errs⟩
    injection he with he2
    subst he2
    show some (serializeErrorChain e) = _
    rw [serializeErrorChain, ← errorChainItems_messages, List.map_map]
    rfl

/-- Witness for C9: a failure with a two-long cause chain serializes to an
envelope whose `errors` field lists the outer message first, then the
root's. -/
theorem api_response_envelope_shape_witness :
    Json.fieldValue
      (serializeApiResponse 500
        (.error (DynError.node "Failed to manipulate database resources"
          (DynError.leaf "disk full")))) "errors" =
      some (.arr [Json.str "Failed to manipulate database resources",
        Json.str "disk full"]) := by
  have h := (api_response_envelope_shape 500
    (.error (DynError.node "Failed to manipulate database resources"
      (DynError.leaf "disk full")))).2.2.2.2
    (DynError.node "Failed to manipulate database resources"
      (DynError.leaf "disk full")) rfl
  rw [h]
  rfl

/-- C10: once the connection is acquired, `with_bare_conn` always invokes
`close` after the body has produced its result, and a close failure after a
successful body discards the success and surfaces the close failure as the
storage-level error instead. -/
theorem with_bare_conn_close_semantics {E T : Type}
    (fromSqlx : SqlxError → E) (env : BareConnEnv E T)
    (h : env.acquire_failure = none) :
    (with_bare_conn fromSqlx env).2 = true ∧
    (∀ (t : T) (e : SqlxError), env.body = .ok t → env.close_failure = some e →
      (with_bare_conn fromSqlx env).1 = .error (fromSqlx e)) := by
  constructor
  · unfold with_bare_conn
    rw [h]
    cases env.close_failure <;> rfl
  · intro t e ht he
    unfold with_bare_conn
    rw [h, he]

/-- Witness for C10: a successful body whose connection fails to close
yields the close failure, and the close was invoked. -/
theorem with_bare_conn_close_semantics_witness :
    (with_bare_conn GetStatusError.from_sqlx
      (⟨none, Except.ok 7, some (SqlxError.Other "close failed")⟩ :
        BareConnEnv GetStatusError Nat)).2 = true ∧
    (with_bare_conn GetStatusError.from_sqlx
      (⟨none, Except.ok 7, some (SqlxError.Other "close failed")⟩ :
        BareConnEnv GetStatusError Nat)).1 =
      .error (GetStatusError.from_sqlx (SqlxError.Other "close failed")) :=
  ⟨(with_bare_conn_close_semantics GetStatusError.from_sqlx _ rfl).1,
   (with_bare_conn_close_semantics GetStatusError.from_sqlx _ rfl).2 7
     (SqlxError.Other "close failed") rfl rfl⟩

end PortableIssuer
